import Mathlib

/-!
Verification development for the MCP transport bridge (mcp_pipe.py).

The definitions below are shallow embeddings of the functions of
mcp_pipe.py; each definition carries a comment naming the source lines it
embeds.  Python strings are modelled as `List Char`, JSON values by the
inductive `JVal`, Python dicts by association lists (insertion order is not
modelled), and machine time and sleep durations by `Nat`/`Rat`.
-/

/-! ## Supervisor reconnection loop (mcp_pipe.py:47-50, 193-209, 226-232) -/

/-- Constant `INITIAL_BACKOFF = 1` (mcp_pipe.py:47). -/
def INITIAL_BACKOFF : Nat := 1

/-- Constant `MAX_BACKOFF = 600` (mcp_pipe.py:48). -/
def MAX_BACKOFF : Nat := 600

/-- The two module globals driving the reconnection loop
(`reconnect_attempt`, `backoff`, mcp_pipe.py:49-50). -/
structure SupervisorState where
  reconnect_attempt : Nat
  backoff : Nat
  deriving DecidableEq, Repr

/-- Initial values of the globals: `reconnect_attempt = 1`, `backoff =
INITIAL_BACKOFF` (mcp_pipe.py:49-50). -/
def initialSupervisorState : SupervisorState :=
  { reconnect_attempt := 1, backoff := INITIAL_BACKOFF }

/-- The `except` branch of `connect_with_retry` (mcp_pipe.py:206-209):
`reconnect_attempt += 1; backoff = min(backoff * 2, MAX_BACKOFF)`. -/
def onConnectionException (s : SupervisorState) : SupervisorState :=
  { reconnect_attempt := s.reconnect_attempt + 1
    backoff := min (s.backoff * 2) MAX_BACKOFF }

/-- The reset performed right after a successful WebSocket handshake
(mcp_pipe.py:231-232): `reconnect_attempt = 0; backoff = INITIAL_BACKOFF`. -/
def onHandshakeSuccess (_s : SupervisorState) : SupervisorState :=
  { reconnect_attempt := 0, backoff := INITIAL_BACKOFF }

/-- Whether the top of the `while` loop of `connect_with_retry` sleeps, and
with which base duration (mcp_pipe.py:198-201): it sleeps
`backoff * (1 + random.random() * 0.1)` seconds iff `reconnect_attempt > 0`. -/
def sleepBase (s : SupervisorState) : Option Nat :=
  if s.reconnect_attempt > 0 then some s.backoff else none

/-- Formula `wait_time = backoff * (1 + random.random() * 0.1)`
(mcp_pipe.py:199), with `u` the value drawn from `random.random()`
(so `0 ≤ u < 1`). -/
def waitTime (backoff : Nat) (u : ℚ) : ℚ :=
  (backoff : ℚ) * (1 + u * (1 / 10))

/-- The supervisor state after `k` consecutive connection failures. -/
def stateAfterFails : Nat → SupervisorState → SupervisorState
  | 0, s => s
  | k + 1, s => stateAfterFails k (onConnectionException s)

/-! ## JSON values as produced by json.loads -/

/-- JSON values (the possible results of `json.loads`).  Numbers are
modelled as integers, which covers every numeric literal the bridge
compares against. -/
inductive JVal where
  | null
  | bool (b : Bool)
  | num (n : Int)
  | str (s : List Char)
  | arr (xs : List JVal)
  | obj (fields : List (List Char × JVal))
  deriving Repr

/-- Python equality `==` restricted to JSON values. -/
def jvalBEq : JVal → JVal → Bool
  | .null, .null => true
  | .bool a, .bool b => a == b
  | .num a, .num b => a == b
  | .str a, .str b => a == b
  | .arr [], .arr [] => true
  | .arr (x :: xs), .arr (y :: ys) => jvalBEq x y && jvalBEq (.arr xs) (.arr ys)
  | .obj [], .obj [] => true
  | .obj ((k1, v1) :: xs), .obj ((k2, v2) :: ys) =>
      k1 == k2 && jvalBEq v1 v2 && jvalBEq (.obj xs) (.obj ys)
  | _, _ => false

/-- Lookup of a key in a parsed JSON object (Python `d[k]` / `d.get(k)` on
a dict produced by `json.loads`; such dicts have string keys, compared with
string equality). -/
def jObjGet (fields : List (List Char × JVal)) (k : List Char) : Option JVal :=
  match fields with
  | [] => none
  | (k2, v) :: rest => if k2 == k then some v else jObjGet rest k

/-- Python substring test `pat in s`. -/
def pySubstr (pat : List Char) : List Char → Bool
  | [] => pat.isEmpty
  | c :: rest => pat.isPrefixOf (c :: rest) || pySubstr pat rest

/-! ## Correlation table (ResponseQueue.tool_requests, mcp_pipe.py:63-64,
124-149) -/

/-- Python `==` on correlation-table keys.  A key is `none` for Python
`None` (an absent `id` field, or JSON `null`). -/
def pyKeyEq (a b : Option JVal) : Bool :=
  match a, b with
  | none, none => true
  | some x, some y => jvalBEq x y
  | _, _ => false

/-- One entry of the correlation table: `tool_requests[id]` together with
`tool_request_timestamps[id]` (mcp_pipe.py:131-133).  The registered name
is whatever value `params["name"]` held. -/
structure CorrEntry where
  name : JVal
  timestamp : Nat

/-- The two parallel dicts of `ResponseQueue`, merged into one association
list from request id to (name, timestamp). -/
abbrev CorrTable : Type := List (Option JVal × CorrEntry)

/-- Dict lookup on the correlation table. -/
def dictLookup (k : Option JVal) : CorrTable → Option CorrEntry
  | [] => none
  | (k2, v) :: rest => if pyKeyEq k2 k then some v else dictLookup k rest

/-- Removal of every binding of a key (Python dict `pop` / reassignment). -/
def dictErase (k : Option JVal) (t : CorrTable) : CorrTable :=
  t.filter (fun p => !(pyKeyEq p.1 k))

/-- Method `register_tool_request` (mcp_pipe.py:124-134): store the name and
the current time under the request id. -/
def register_tool_request (request_id : Option JVal) (name : JVal) (now : Nat)
    (t : CorrTable) : CorrTable :=
  (request_id, ⟨name, now⟩) :: dictErase request_id t

/-- Method `get_tool_request` (mcp_pipe.py:136-149):
`tool_requests.pop(response_id, None)`, returning the stored name (if any)
and the table with the binding removed. -/
def get_tool_request (response_id : Option JVal) (t : CorrTable) :
    Option JVal × CorrTable :=
  match dictLookup response_id t with
  | some e => (some e.name, dictErase response_id t)
  | none => (none, t)

/-- Conversion of a JSON `id` value to the Python dict key used by the
correlation table: `json.loads` maps JSON `null` to Python `None`. -/
def pyIdOf (v : JVal) : Option JVal :=
  match v with
  | .null => none
  | v => some v

/-- Value of `msg_data.get("id")` for an object payload (mcp_pipe.py:409,
611): Python `None` when the key is absent or its value is JSON null. -/
def objRequestId (fields : List (List Char × JVal)) : Option JVal :=
  match jObjGet fields "id".toList with
  | some v => pyIdOf v
  | none => none

/-- The tool-call test of mcp_pipe.py:406-407 and 608-609 on a parsed
message: `method` equals `tools/call` and `params` carries a `name` key.
Modelled for payloads whose `params` parses as an object (the only shape on
which the subsequent `msg_data["params"]["name"]` indexing succeeds). -/
def isToolCallMsg (j : JVal) : Bool :=
  match j with
  | .obj fields =>
      (match jObjGet fields "method".toList with
       | some (.str m) => m == "tools/call".toList
       | _ => false)
      &&
      (match jObjGet fields "params".toList with
       | some (.obj pfields) => (jObjGet pfields "name".toList).isSome
       | _ => false)
  | _ => false

/-- Value of `msg_data["params"]["name"]` (mcp_pipe.py:408, 610). -/
def toolCallNameVal (j : JVal) : Option JVal :=
  match j with
  | .obj fields =>
      match jObjGet fields "params".toList with
      | some (.obj pfields) => jObjGet pfields "name".toList
      | _ => none
  | _ => none

/-- Correlation-table effect of one WebSocket message on the egress paths of
`pipe_websocket_to_sse` (mcp_pipe.py:404-414) and `process_requests`
(mcp_pipe.py:606-616); the two code blocks are identical.  `parsed` is the
result of `json.loads` on the message, `none` on a parse failure (which
leaves the table unchanged). -/
def wsMessageRegister (now : Nat) (parsed : Option JVal) (t : CorrTable) :
    CorrTable :=
  match parsed with
  | some j =>
      if isToolCallMsg j then
        match toolCallNameVal j with
        | some nm => register_tool_request (objRequestId (match j with
            | .obj fields => fields
            | _ => [])) nm now t
        | none => t
      else t
  | none => t

/-- Correlation-table effect of one parsed `message` event in
`pipe_sse_to_websocket` (mcp_pipe.py:482-487): when the parse is an object
carrying an `id` key, `get_tool_request` pops the matching entry. -/
def pipe_sse_to_websocket_drain (parsed : JVal) (t : CorrTable) : CorrTable :=
  match parsed with
  | .obj fields =>
      match jObjGet fields "id".toList with
      | some v => (get_tool_request (pyIdOf v) t).2
      | none => t
  | _ => t

/-- Per-message behaviour of `pipe_websocket_to_process`
(mcp_pipe.py:305-320): the received message is written to the stdin of the
child with a newline appended; neither the correlation table nor the
response queue is consulted. -/
def pipe_websocket_to_process_step (message : List Char) (t : CorrTable) :
    CorrTable × List Char :=
  (t, message ++ ['\n'])

/-! ## Streamable-HTTP response-stream handling (mcp_pipe.py:692-709) -/

/-- What `process_requests` does with one completed SSE data block of a POST
response stream. -/
inductive StreamDataAction where
  | closeWs4004AndReturn
  | enqueue (payload : List Char)
  deriving DecidableEq, Repr

/-- Handling of a completed SSE data block inside the POST response stream
of `process_requests` (mcp_pipe.py:692-709).  `payload` is the joined data
lines, `parsed` the fields when `json.loads(payload)` yields an object
(`none` for a parse failure, which enqueues the raw payload).  The code
closes the WebSocket with code 4004 only when the object has an `error` key
and its top-level `code` field equals 4004 (`json_check_data.get("code")`,
mcp_pipe.py:699); otherwise the payload is enqueued and the correlation
table is never consulted on this path. -/
def process_requests_data_action (payload : List Char)
    (parsed : Option (List (List Char × JVal))) : StreamDataAction :=
  match parsed with
  | some fields =>
      if (jObjGet fields "error".toList).isSome then
        match jObjGet fields "code".toList with
        | some (.num c) =>
            if c == 4004 then .closeWs4004AndReturn
            else .enqueue payload
        | _ => .enqueue payload
      else .enqueue payload
  | none => .enqueue payload

/-- The same data-block handling together with its (absent) effect on the
correlation table: no statement of mcp_pipe.py:692-709 reads or writes
`tool_requests`, so the table passes through unchanged. -/
def process_requests_data_step (payload : List Char)
    (parsed : Option (List (List Char × JVal))) (t : CorrTable) :
    StreamDataAction × CorrTable :=
  (process_requests_data_action payload parsed, t)

/-- Nested error code `error.code` of a parsed payload; this is the field
named by claim C3, not the field the code tests. -/
def jErrorCode (fields : List (List Char × JVal)) : Option JVal :=
  match jObjGet fields "error".toList with
  | some (.obj efields) => jObjGet efields "code".toList
  | _ => none

/-! ## SSE POST-URL composition (mcp_pipe.py:264-272, 358-390) -/

/-- Computation `base_url = target.split("/sse")[0]` (mcp_pipe.py:266): the
part of the configured SSE URL before the first occurrence of `/sse`. -/
def sse_base_url : List Char → List Char
  | [] => []
  | c :: rest =>
      if "/sse".toList.isPrefixOf (c :: rest) then []
      else c :: sse_base_url rest

/-- Python `s.split(sep, 1)` for a one-character separator, as a pair; none
when the separator does not occur. -/
def splitOnce (sep : Char) : List Char → Option (List Char × List Char)
  | [] => none
  | c :: rest =>
      if c = sep then some ([], rest)
      else
        match splitOnce sep rest with
        | some (a, b) => some (c :: a, b)
        | none => none

/-- Construction of `full_endpoint` in `pipe_websocket_to_sse`
(mcp_pipe.py:371-388): split the endpoint at the first `?`; only when a
query string is present, a path part containing the substring `/message`
is replaced by `/message`; strip a trailing slash from the base, ensure the
path begins with a slash, and append the query string when nonempty. -/
def sse_full_endpoint (base_url message_endpoint : List Char) : List Char :=
  let ps : List Char × List Char :=
    match splitOnce '?' message_endpoint with
    | some (p, s) =>
        (if pySubstr "/message".toList p then "/message".toList else p, s)
    | none => (message_endpoint, [])
  let base := if base_url.getLast? == some '/' then base_url.dropLast else base_url
  let path := if ps.1.head? == some '/' then ps.1 else '/' :: ps.1
  if ps.2.isEmpty then base ++ path else base ++ path ++ '?' :: ps.2

/-! ## Egress wrapping (mcp_pipe.py:424-425, 643-645) -/

/-- The two forms in which a WebSocket message is POSTed downstream:
byte-for-byte, or as `json.dumps` of the single-field wrapper object whose
`message` field holds the original text. -/
inductive PostedForm where
  | verbatim (m : List Char)
  | wrapped (m : List Char)
  deriving DecidableEq, Repr

/-- Egress wrapping decision, identical in `pipe_websocket_to_sse`
(mcp_pipe.py:424-425) and `process_requests` (mcp_pipe.py:643-645): a
message is wrapped iff it does not start with a left brace. -/
def egressPosted (message : List Char) : PostedForm :=
  match message with
  | [] => .wrapped []
  | c :: rest => if c = '{' then .verbatim (c :: rest) else .wrapped (c :: rest)

/-- First non-whitespace character of a message; used only to state claim
C8, which speaks of the first non-whitespace byte. -/
def firstNonWs (m : List Char) : Option Char := m.find? (fun c => !c.isWhitespace)

/-! ## Response queue (mcp_pipe.py:55-122, 184, 512-571) -/

/-- Python exceptions appearing on the response-queue paths. -/
inductive PyErr where
  | timeoutError
  | queueFull
  | cancelled
  deriving DecidableEq, Repr

/-- Method `ResponseQueue.get` (mcp_pipe.py:105-122):
`wait_for(self.queue.get(), timeout=30.0)`.  The argument is the outcome of
the inner wait: a message if one arrived within the 30-second window, none
if the timeout fired.  On `asyncio.TimeoutError` the method logs a warning
and re-raises; every other exception is also logged and re-raised. -/
def ResponseQueue_get (inner : Option (List Char)) : Except PyErr (List Char) :=
  match inner with
  | some m => .ok m
  | none => .error .timeoutError

/-- Control-flow outcome of one iteration of `process_response_queue`
(mcp_pipe.py:512-571) at the `response_queue.get()` call. -/
inductive ConsumerStep where
  | continueWith (m : List Char)
  | propagate (e : PyErr)
  deriving DecidableEq, Repr

/-- The `while` loop of `process_response_queue` has no handler around
`response_queue.get()`; the enclosing `try` logs and re-raises every
exception other than `CancelledError` (mcp_pipe.py:566-571), so a get
timeout propagates out of the consumer task. -/
def process_response_queue_step (r : Except PyErr (List Char)) : ConsumerStep :=
  match r with
  | .ok m => .continueWith m
  | .error e => .propagate e

/-- Queue bound: `ResponseQueue()` is constructed with the default
`maxsize=1000` (mcp_pipe.py:56, 184, 215). -/
def RESPONSE_QUEUE_MAXSIZE : Nat := 1000

/-- Outcomes of `ResponseQueue.add` (mcp_pipe.py:83-103). -/
inductive AddOutcome where
  | enqueued (q : List (List Char))
  | enqueuedAfterWait
  | timeoutNotEnqueued
  | queueFullRaised
  deriving DecidableEq, Repr

/-- Method `ResponseQueue.add` (mcp_pipe.py:83-103):
`await wait_for(self.queue.put(message), timeout=10.0)`.
`asyncio.Queue.put` appends when the queue has room and otherwise suspends
until a slot frees; `asyncio.QueueFull` is raised only by `put_nowait`,
which `add` never calls, so the `except asyncio.QueueFull` branch
(mcp_pipe.py:95-97) is dead code.  `putCompletes` abstracts whether a
suspended put obtains a slot before the 10-second `wait_for` deadline; when
the deadline fires, `wait_for` cancels the put and raises
`asyncio.TimeoutError`, which `add` logs and re-raises, the message not
having been enqueued. -/
def ResponseQueue_add (q : List (List Char)) (m : List Char)
    (putCompletes : Bool) : AddOutcome :=
  if q.length < RESPONSE_QUEUE_MAXSIZE then .enqueued (q ++ [m])
  else if putCompletes then .enqueuedAfterWait
  else .timeoutNotEnqueued

/-! ## Heartbeats and the streamable task graph (mcp_pipe.py:573-799,
848-922) -/

/-- Cadence of `websocket_heartbeat`: `asyncio.sleep(20)` before each ping
(mcp_pipe.py:907). -/
def WS_HEARTBEAT_INTERVAL : Nat := 20

/-- Pong wait of `websocket_heartbeat`:
`wait_for(pong_waiter, timeout=10)` (mcp_pipe.py:910). -/
def WS_PONG_TIMEOUT : Nat := 10

/-- Outcome of one `websocket_heartbeat` iteration. -/
inductive HeartbeatStep where
  | continueLoop
  | raiseConnClosed (reason : List Char)
  deriving DecidableEq, Repr

/-- One iteration of `websocket_heartbeat` after its 20-second sleep
(mcp_pipe.py:908-919): `pongArrival` is when the pong arrives, in seconds
after the ping, none if it never does.  A `wait_for` timeout is turned into
a raised `ConnectionClosed` with reason `Pong timeout`, which ends the
heartbeat task. -/
def websocket_heartbeat_step (pongArrival : Option Nat) : HeartbeatStep :=
  match pongArrival with
  | some t => if t < WS_PONG_TIMEOUT then .continueLoop
              else .raiseConnClosed "Pong timeout".toList
  | none => .raiseConnClosed "Pong timeout".toList

/-- The four tasks created by `pipe_streamable_http`
(mcp_pipe.py:760-764). -/
inductive ShttpTask where
  | httpHeartbeat
  | wsHeartbeat
  | requestHandler
  | requestProcessor
  deriving DecidableEq, Repr

/-- The set of tasks passed to `asyncio.wait(..., FIRST_COMPLETED)`
(mcp_pipe.py:766-769): the request handler and the request processor only. -/
def pipe_streamable_http_waited : List ShttpTask :=
  [.requestHandler, .requestProcessor]

/-- Whether the failure of a task is re-raised out of
`pipe_streamable_http`.  Exceptions are re-raised only from the done set of
the `asyncio.wait` call (mcp_pipe.py:771-774), and the `finally` block
(mcp_pipe.py:785-799) cancels only tasks that are not yet done, so the
exception of an already-failed heartbeat task is never retrieved. -/
def pipe_streamable_http_propagates (t : ShttpTask) : Bool :=
  pipe_streamable_http_waited.contains t

/-! ## Session-id handling in streamable_http (mcp_pipe.py:573-901) -/

/-- Result of `initialize_session` (mcp_pipe.py:801-846) on a 200/202
response: the `Mcp-Session-Id` response header, overridden by
`result.sessionId` when the body parses to an object carrying one. -/
def initialize_session_sid (headerSid bodySid : Option (List Char)) :
    Option (List Char) :=
  match bodySid with
  | some s => some s
  | none => headerSid

/-- Session-id state of one streamable_http connection: the nonlocal
`session_id` of `pipe_streamable_http` used by `process_requests`
(mcp_pipe.py:575, 595, 624-625, 657-661), and the separate `session_id`
parameter of `send_heartbeat`, bound when the heartbeat task is created
(mcp_pipe.py:760, 848) and updated only from heartbeat responses
(mcp_pipe.py:877-881). -/
structure ShttpSessionState where
  processorSid : Option (List Char)
  heartbeatSid : Option (List Char)
  deriving DecidableEq, Repr

/-- State right after `initialize_session` returns and the heartbeat task
is created with the returned id (mcp_pipe.py:753-760). -/
def shttpSessionInit (sid : Option (List Char)) : ShttpSessionState :=
  ⟨sid, sid⟩

/-- The `Mcp-Session-Id` header attached to a POST of `process_requests`
(mcp_pipe.py:624-625): present iff `session_id` is truthy. -/
def processorPostSid (st : ShttpSessionState) : Option (List Char) :=
  match st.processorSid with
  | some s => if s.isEmpty then none else some s
  | none => none

/-- Adoption in `process_requests` (mcp_pipe.py:657-661): when the POST
response carries a `Mcp-Session-Id` header that differs from the current
id, the nonlocal `session_id` is updated; the heartbeat keeps its own
copy. -/
def processorOnPostResponse (st : ShttpSessionState)
    (hdr : Option (List Char)) : ShttpSessionState :=
  match hdr with
  | some nid =>
      if some nid ≠ st.processorSid then { st with processorSid := some nid }
      else st
  | none => st

/-- The `Mcp-Session-Id` header attached to a heartbeat POST
(mcp_pipe.py:858-859, 870-871): the headers dict carries the local
`session_id` of `send_heartbeat` whenever it is truthy. -/
def heartbeatPostSid (st : ShttpSessionState) : Option (List Char) :=
  match st.heartbeatSid with
  | some s => if s.isEmpty then none else some s
  | none => none

/-- Adoption in `send_heartbeat` (mcp_pipe.py:875-881): on a successful
heartbeat response whose `Mcp-Session-Id` differs from the local copy, the
heartbeat updates its own copy only. -/
def heartbeatOnResponse (st : ShttpSessionState)
    (hdr : Option (List Char)) : ShttpSessionState :=
  match hdr with
  | some nid =>
      if some nid ≠ st.heartbeatSid then { st with heartbeatSid := some nid }
      else st
  | none => st

/-! ## Process exit status (mcp_pipe.py:934-937, 939-1003) -/

/-- The ways the `__main__` block can end once `asyncio.run` has been
entered. -/
inductive TopLevelEnd where
  | sigint
  | keyboardInterrupt
  | otherException
  deriving DecidableEq, Repr

/-- Process exit status for each ending.  `signal_handler` calls
`sys.exit(0)` (mcp_pipe.py:934-937); the two `except` branches of the
`__main__` block (mcp_pipe.py:998-1003) log and fall off the end of the
script, after which the interpreter exits with status 0 — no `sys.exit`
call follows them. -/
def mainExitCode : TopLevelEnd → Nat
  | .sigint => 0
  | .keyboardInterrupt => 0
  | .otherException => 0

/-- The configuration failure paths of the `__main__` block, each ending in
`sys.exit(1)` (mcp_pipe.py:952-992). -/
inductive ConfigFailure where
  | loadFailed
  | missingEndpointKey
  | missingSseUrl
  | missingScriptPath
  | missingStreamableUrl
  | unsupportedMode
  | missingEnvEndpoint
  deriving DecidableEq, Repr

/-- Every configuration failure path exits with status 1
(mcp_pipe.py:952-992). -/
def configFailureExitCode : ConfigFailure → Nat := fun _ => 1

/-! ## Concrete example payloads used by witnesses and counterexamples -/

/-- Parse of the tool-call request
`\x7b"jsonrpc": "2.0", "id": 7, "method": "tools/call",
"params": \x7b"name": "calculator"\x7d\x7d`. -/
def toolsCallExampleFields : List (List Char × JVal) :=
  [("jsonrpc".toList, .str "2.0".toList),
   ("id".toList, .num 7),
   ("method".toList, .str "tools/call".toList),
   ("params".toList, .obj [("name".toList, .str "calculator".toList)])]

/-- The same request as a JSON value. -/
def toolsCallExample : JVal := .obj toolsCallExampleFields

/-- Parse of the streamed payload
`\x7b"error": \x7b"code": 4004, "message": "server error"\x7d\x7d`: the
4004 code sits inside the `error` object, as in claim C3 and spec scenario
S6. -/
def error4004NestedExample : List (List Char × JVal) :=
  [("error".toList,
    .obj [("code".toList, .num 4004),
          ("message".toList, .str "server error".toList)])]

/-- Parse of a payload with a top-level `code` field,
`\x7b"error": "internal", "code": 4004\x7d`: the shape the code actually
closes on. -/
def error4004TopExample : List (List Char × JVal) :=
  [("error".toList, .str "internal".toList),
   ("code".toList, .num 4004)]

/-! ## Helper lemmas -/

theorem stateAfterFails_attempt (k : Nat) (s : SupervisorState) :
    (stateAfterFails k s).reconnect_attempt = s.reconnect_attempt + k := by
  induction k generalizing s with
  | zero => rfl
  | succ n ih =>
      simp only [stateAfterFails, ih, onConnectionException]
      omega

theorem stateAfterFails_backoff (k : Nat) (s : SupervisorState)
    (h : s.backoff ≤ MAX_BACKOFF) :
    (stateAfterFails k s).backoff = min (s.backoff * 2 ^ k) MAX_BACKOFF := by
  induction k generalizing s with
  | zero =>
      simp [stateAfterFails, Nat.min_eq_left h]
  | succ n ih =>
      have h2 : (onConnectionException s).backoff ≤ MAX_BACKOFF := by
        simp [onConnectionException]
      rw [stateAfterFails, ih _ h2]
      simp only [onConnectionException]
      rcases le_or_lt (s.backoff * 2) MAX_BACKOFF with hle | hlt
      · rw [Nat.min_eq_left hle, pow_succ]
        ring_nf
      · rw [Nat.min_eq_right (Nat.le_of_lt hlt)]
        have hp : 1 ≤ 2 ^ n := Nat.one_le_two_pow
        have h600 : MAX_BACKOFF ≤ MAX_BACKOFF * 2 ^ n :=
          Nat.le_mul_of_pos_right _ (by omega)
        rw [Nat.min_eq_right h600]
        have : MAX_BACKOFF ≤ s.backoff * 2 ^ (n + 1) := by
          calc MAX_BACKOFF ≤ s.backoff * 2 := Nat.le_of_lt hlt
            _ ≤ s.backoff * 2 * 2 ^ n := Nat.le_mul_of_pos_right _ (by omega)
            _ = s.backoff * 2 ^ (n + 1) := by rw [pow_succ]; ring
        rw [Nat.min_eq_right this]

theorem jvalBEq_refl : (v : JVal) → jvalBEq v v = true
  | .null => by rw [jvalBEq]
  | .bool b => by simp [jvalBEq]
  | .num n => by simp [jvalBEq]
  | .str s => by simp [jvalBEq]
  | .arr [] => by rw [jvalBEq]
  | .arr (x :: xs) => by
      rw [jvalBEq, jvalBEq_refl x, jvalBEq_refl (.arr xs)]; rfl
  | .obj [] => by rw [jvalBEq]
  | .obj ((k, v) :: xs) => by
      rw [jvalBEq, jvalBEq_refl v, jvalBEq_refl (.obj xs)]
      simp

theorem pyKeyEq_refl (k : Option JVal) : pyKeyEq k k = true := by
  cases k with
  | none => rfl
  | some v => simpa [pyKeyEq] using jvalBEq_refl v

theorem dictLookup_register (k : Option JVal) (nm : JVal) (now : Nat)
    (t : CorrTable) :
    dictLookup k (register_tool_request k nm now t) = some ⟨nm, now⟩ := by
  simp [register_tool_request, dictLookup, pyKeyEq_refl k]

theorem dictLookup_erase (k : Option JVal) (t : CorrTable) :
    dictLookup k (dictErase k t) = none := by
  induction t with
  | nil => rfl
  | cons p rest ih =>
      rcases p with ⟨k2, v⟩
      by_cases h : pyKeyEq k2 k = true
      · simpa [dictErase, List.filter_cons, h] using ih
      · have hb : pyKeyEq k2 k = false := by
          simpa using h
        simpa [dictErase, List.filter_cons, hb, dictLookup] using ih

theorem dictLookup_get_tool_request (k : Option JVal) (t : CorrTable) :
    dictLookup k (get_tool_request k t).2 = none := by
  unfold get_tool_request
  cases h : dictLookup k t with
  | some e => simp [dictLookup_erase]
  | none => simpa using h

/-! ## Claim C1: reconnection backoff -/

/-- Claim C1, counterexample.  The claim states that after any success the
next failure restarts the sleep sequence from 1 second.  In the code the
`except` branch doubles `backoff` before the loop reaches the sleep again,
so the first sleep after a success-then-failure has base 2 seconds, not 1. -/
theorem C1_counterexample :
    sleepBase (onConnectionException (onHandshakeSuccess initialSupervisorState)) = some 2 ∧
    sleepBase (onConnectionException (onHandshakeSuccess initialSupervisorState)) ≠
      some INITIAL_BACKOFF := by
  constructor
  · rfl
  · intro h
    simp [sleepBase, onConnectionException, onHandshakeSuccess, INITIAL_BACKOFF,
      MAX_BACKOFF] at h

/-- Claim C1, amended.  The sleep before a retry equals the current backoff
times a factor in [1.0, 1.1); backoff starts at 1, doubles after each failed
attempt (before the next sleep) up to a cap of 600, and a successful
handshake resets the counter to 0 and backoff to 1.  Consequently the sleeps
observed from process start under repeated failures have bases
min(2^k, 600) = 1, 2, 4, ..., 600, 600, ..., there is no sleep immediately
after a success, and after a success the sleeps under renewed failures have
bases min(2^(k+1), 600) = 2, 4, 8, ..., 600, 600, ... (each jittered by at
most 10 percent): the post-success sequence restarts from 2, not from 1. -/
theorem C1_prop (s : SupervisorState) (k : Nat) (u : ℚ)
    (hu0 : 0 ≤ u) (hu1 : u < 1) :
    sleepBase (stateAfterFails k initialSupervisorState) =
      some (min (2 ^ k) MAX_BACKOFF) ∧
    sleepBase (onHandshakeSuccess s) = none ∧
    sleepBase (stateAfterFails (k + 1) (onHandshakeSuccess s)) =
      some (min (2 ^ (k + 1)) MAX_BACKOFF) ∧
    ((min (2 ^ k) MAX_BACKOFF : Nat) : ℚ) ≤ waitTime (min (2 ^ k) MAX_BACKOFF) u ∧
    waitTime (min (2 ^ k) MAX_BACKOFF) u <
      ((min (2 ^ k) MAX_BACKOFF : Nat) : ℚ) * (11 / 10) := by
  have hinit : (initialSupervisorState).backoff ≤ MAX_BACKOFF := by
    simp [initialSupervisorState, INITIAL_BACKOFF, MAX_BACKOFF]
  have hsucc : (onHandshakeSuccess s).backoff ≤ MAX_BACKOFF := by
    simp [onHandshakeSuccess, INITIAL_BACKOFF, MAX_BACKOFF]
  have hb : 1 ≤ min (2 ^ k) MAX_BACKOFF := by
    have : 1 ≤ 2 ^ k := Nat.one_le_two_pow
    simp [MAX_BACKOFF]
    omega
  refine ⟨?_, ?_, ?_, ?_, ?_⟩
  · rw [sleepBase]
    rw [stateAfterFails_backoff k _ hinit, stateAfterFails_attempt]
    simp [initialSupervisorState, INITIAL_BACKOFF]
  · rfl
  · rw [sleepBase]
    rw [stateAfterFails_backoff _ _ hsucc, stateAfterFails_attempt]
    simp [onHandshakeSuccess, INITIAL_BACKOFF]
  · rw [waitTime]
    have hbq : (1 : ℚ) ≤ ((min (2 ^ k) MAX_BACKOFF : Nat) : ℚ) := by
      exact_mod_cast hb
    nlinarith
  · rw [waitTime]
    have hbq : (1 : ℚ) ≤ ((min (2 ^ k) MAX_BACKOFF : Nat) : ℚ) := by
      exact_mod_cast hb
    nlinarith

/-- Claim C1, witness instantiating the amended theorem at the initial
state, one post-success failure and zero jitter. -/
theorem C1_witness :
    sleepBase (stateAfterFails (0 + 1) (onHandshakeSuccess initialSupervisorState)) =
      some (min (2 ^ (0 + 1)) MAX_BACKOFF) :=
  (C1_prop initialSupervisorState 0 0 (le_refl 0) (by norm_num)).2.2.1

/-! ## Claim C2: WebSocket heartbeat failure handling -/

/-- Claim C2.  The heartbeat does sleep 20 seconds between pings and allows
10 seconds for the pong, and a missing pong makes the heartbeat task raise
a synthetic ConnectionClosed; but `pipe_streamable_http` awaits only the
request handler and the request processor, so the raised exception is never
retrieved: the failure does not propagate to the Supervisor and no
reconnect is triggered, contradicting the claim (the raise makes clear the
code intends the failure to propagate, so this is recorded as a code bug). -/
theorem C2_prop :
    WS_HEARTBEAT_INTERVAL = 20 ∧ WS_PONG_TIMEOUT = 10 ∧
    websocket_heartbeat_step none = .raiseConnClosed "Pong timeout".toList ∧
    websocket_heartbeat_step (some 3) = .continueLoop ∧
    pipe_streamable_http_propagates .wsHeartbeat = false ∧
    pipe_streamable_http_propagates .requestHandler = true ∧
    pipe_streamable_http_propagates .requestProcessor = true := by
  refine ⟨rfl, rfl, rfl, by decide, by decide, by decide, by decide⟩

/-! ## Claim C3: 4004 handling in the streamable response stream -/

/-- Claim C3, counterexample.  The payload of spec scenario S6 carries
`error.code == 4004`, yet `process_requests` enqueues it instead of closing
the WebSocket: the code tests the top-level `code` key
(`json_check_data.get("code")`), which this payload lacks. -/
theorem C3_counterexample :
    jErrorCode error4004NestedExample = some (JVal.num 4004) ∧
    process_requests_data_action
        "\x7b\"error\": \x7b\"code\": 4004, \"message\": \"server error\"\x7d\x7d".toList
        (some error4004NestedExample) =
      .enqueue
        "\x7b\"error\": \x7b\"code\": 4004, \"message\": \"server error\"\x7d\x7d".toList ∧
    process_requests_data_action
        "\x7b\"error\": \x7b\"code\": 4004, \"message\": \"server error\"\x7d\x7d".toList
        (some error4004NestedExample) ≠
      .closeWs4004AndReturn := by
  refine ⟨rfl, rfl, by decide⟩

/-- Claim C3, amended.  For an SSE data block whose joined data parses as a
JSON object, the bridge closes the WebSocket with code 4004 and returns
only when the object contains an `error` key and its top-level `code` field
equals 4004; when the top-level `code` field is absent the payload is
enqueued to the Response Queue instead (in particular for payloads whose
4004 sits only in `error.code`). -/
theorem C3_prop (payload : List Char) (fields : List (List Char × JVal))
    (t : CorrTable) :
    ((jObjGet fields "error".toList).isSome = true →
      jObjGet fields "code".toList = some (JVal.num 4004) →
      process_requests_data_step payload (some fields) t =
        (.closeWs4004AndReturn, t)) ∧
    (jObjGet fields "code".toList = none →
      (process_requests_data_step payload (some fields) t).1 =
        .enqueue payload) := by
  constructor
  · intro he hc
    obtain ⟨v, hv⟩ := Option.isSome_iff_exists.mp he
    simp only [process_requests_data_step, process_requests_data_action]
    rw [hc, hv]
    simp
  · intro hc
    simp only [process_requests_data_step, process_requests_data_action]
    rw [hc]
    by_cases he : (jObjGet fields "error".toList).isSome <;> simp [he]

/-- Claim C3, witness: a payload with the `error` key and a top-level
`code` of 4004 does close the WebSocket with code 4004. -/
theorem C3_witness :
    process_requests_data_step
        "\x7b\"error\": \"internal\", \"code\": 4004\x7d".toList
        (some error4004TopExample) [] =
      (.closeWs4004AndReturn, []) :=
  (C3_prop "\x7b\"error\": \"internal\", \"code\": 4004\x7d".toList
    error4004TopExample []).1 (by decide) rfl

/-! ## Claim C4: response-queue dequeue timeout -/

/-- Claim C4, counterexample.  When the 30-second dequeue timeout expires,
`ResponseQueue.get` logs and re-raises `asyncio.TimeoutError`, and the
consumer loop of `process_response_queue` propagates it (after another log
and re-raise): the consumer aborts rather than waiting again. -/
theorem C4_counterexample :
    process_response_queue_step (ResponseQueue_get none) =
      .propagate PyErr.timeoutError ∧
    process_response_queue_step (ResponseQueue_get none) ≠
      .continueWith [] := by
  refine ⟨rfl, by decide⟩

/-- Claim C4, amended.  Expiry of the 30-second dequeue timeout makes
`ResponseQueue.get` log a warning and re-raise `asyncio.TimeoutError`; the
consumer loop has no handler for it and its enclosing `try` re-raises after
logging, so the consumer task aborts (tearing down the connection in the
modes that await it); only a successful dequeue continues the loop. -/
theorem C4_prop (m : List Char) :
    ResponseQueue_get none = .error PyErr.timeoutError ∧
    process_response_queue_step (ResponseQueue_get none) =
      .propagate PyErr.timeoutError ∧
    process_response_queue_step (ResponseQueue_get (some m)) =
      .continueWith m :=
  ⟨rfl, rfl, rfl⟩

/-! ## Claim C5: correlation table population and draining -/

/-- Claim C5, counterexample.  The claim says the (id, tool-name) pair is
inserted in every mode, but in stdio mode `pipe_websocket_to_process`
forwards the tool-call request
`\x7b"jsonrpc": "2.0", "id": 7, "method": "tools/call",
"params": \x7b"name": "calculator"\x7d\x7d` to the child without touching
the correlation table, which stays empty. -/
theorem C5_counterexample :
    isToolCallMsg toolsCallExample = true ∧
    pipe_websocket_to_process_step
        "\x7b\"jsonrpc\": \"2.0\", \"id\": 7, \"method\": \"tools/call\", \"params\": \x7b\"name\": \"calculator\"\x7d\x7d".toList
        [] =
      (([] : CorrTable),
       "\x7b\"jsonrpc\": \"2.0\", \"id\": 7, \"method\": \"tools/call\", \"params\": \x7b\"name\": \"calculator\"\x7d\x7d".toList
         ++ ['\n']) :=
  ⟨by decide, rfl⟩

/-- Claim C5, amended.  Only the SSE and streamable_http egress paths
insert the (id, name) pair for a parsed tools/call message with
params.name; an entry is removed on a downstream message with a matching id
only in SSE mode (`pipe_sse_to_websocket`); the streamable response-stream
handler never touches the table, and stdio mode neither inserts nor
removes. -/
theorem C5_prop (now : Nat) (fields : List (List Char × JVal)) (nm : JVal)
    (t : CorrTable) (m : List Char)
    (hj : isToolCallMsg (.obj fields) = true)
    (hn : toolCallNameVal (.obj fields) = some nm) :
    dictLookup (objRequestId fields)
        (wsMessageRegister now (some (.obj fields)) t) = some ⟨nm, now⟩ ∧
    (∀ f2 : List (List Char × JVal), ∀ v : JVal,
        jObjGet f2 "id".toList = some v →
        dictLookup (pyIdOf v) (pipe_sse_to_websocket_drain (.obj f2) t) = none) ∧
    pipe_websocket_to_process_step m t = (t, m ++ ['\n']) ∧
    (∀ payload : List Char, ∀ parsed : Option (List (List Char × JVal)),
        (process_requests_data_step payload parsed t).2 = t) := by
  refine ⟨?_, ?_, rfl, ?_⟩
  · simp only [wsMessageRegister, hj, if_true, hn]
    exact dictLookup_register _ _ _ _
  · intro f2 v hv
    simp only [pipe_sse_to_websocket_drain]
    rw [hv]
    exact dictLookup_get_tool_request _ _
  · intro payload parsed
    rfl

/-- Claim C5, witness: registering the example tools/call request in SSE or
streamable egress makes its id map to the tool name. -/
theorem C5_witness :
    dictLookup (objRequestId toolsCallExampleFields)
        (wsMessageRegister 0 (some (.obj toolsCallExampleFields)) []) =
      some ⟨.str "calculator".toList, 0⟩ :=
  (C5_prop 0 toolsCallExampleFields (.str "calculator".toList) [] []
    (by decide) rfl).1

/-! ## Claim C6: SSE POST-URL composition -/

/-- Claim C6, counterexample.  For the endpoint of spec scenario S3 the
code composes `https://h/p/m?sessionId=abc`, not
`https://h/p/message?sessionId=abc`: the path `/m` does not contain the
substring `/message`, so it is preserved. -/
theorem C6_counterexample :
    sse_full_endpoint (sse_base_url "https://h/p/sse".toList)
        "/m?sessionId=abc".toList =
      "https://h/p/m?sessionId=abc".toList ∧
    sse_full_endpoint (sse_base_url "https://h/p/sse".toList)
        "/m?sessionId=abc".toList ≠
      "https://h/p/message?sessionId=abc".toList := by
  refine ⟨by decide, by decide⟩

/-- Claim C6, amended.  The POST URL is composed from the base URL (the
part of the configured SSE URL before the first `/sse`) and the endpoint,
preserving the query string; only when a query string is present is a path
part containing the substring `/message` collapsed to exactly `/message`,
all other paths being preserved verbatim.  In particular `/m?sessionId=abc`
against base URL `https://h/p/sse` composes `https://h/p/m?sessionId=abc`,
while `/x/message/y?sessionId=abc` composes
`https://h/p/message?sessionId=abc`, and without a query string even a
path containing `/message` is preserved. -/
theorem C6_prop :
    sse_base_url "https://h/p/sse".toList = "https://h/p".toList ∧
    sse_full_endpoint "https://h/p".toList "/m?sessionId=abc".toList =
      "https://h/p/m?sessionId=abc".toList ∧
    sse_full_endpoint "https://h/p".toList "/x/message/y?sessionId=abc".toList =
      "https://h/p/message?sessionId=abc".toList ∧
    sse_full_endpoint "https://h/p".toList "/x/message/y".toList =
      "https://h/p/x/message/y".toList := by
  refine ⟨by decide, by decide, by decide, by decide⟩

/-! ## Claim C7: session-id echoing -/

/-- Claim C7, counterexample.  Start a streamable connection with session id
A; a POST response carries a differing header B, which the request
processor adopts.  The next heartbeat POST still carries A — the heartbeat
task holds its own copy, bound at task creation — so not every heartbeat
POST carries the current session id. -/
theorem C7_counterexample :
    (processorOnPostResponse (shttpSessionInit (some "A".toList))
        (some "B".toList)).processorSid = some "B".toList ∧
    heartbeatPostSid (processorOnPostResponse (shttpSessionInit (some "A".toList))
        (some "B".toList)) = some "A".toList ∧
    heartbeatPostSid (processorOnPostResponse (shttpSessionInit (some "A".toList))
        (some "B".toList)) ≠ some "B".toList := by
  refine ⟨by decide, by decide, by decide⟩

/-- Claim C7, amended.  A session id learned by `initialize_session` is
carried by the request-processor POSTs and by the heartbeat POSTs; a
differing `Mcp-Session-Id` on a POST response is adopted by the request
processor for its subsequent POSTs, but the heartbeat task keeps an
independent copy bound at task creation and updated only from heartbeat
responses, so after such an adoption heartbeat POSTs continue to carry the
old id (and a heartbeat adoption likewise does not reach the processor). -/
theorem C7_prop (sid nid : List Char) (st : ShttpSessionState)
    (h : sid.isEmpty = false) :
    processorPostSid (shttpSessionInit (some sid)) = some sid ∧
    heartbeatPostSid (shttpSessionInit (some sid)) = some sid ∧
    (processorOnPostResponse st (some nid)).processorSid = some nid ∧
    (processorOnPostResponse st (some nid)).heartbeatSid = st.heartbeatSid ∧
    (heartbeatOnResponse st (some nid)).processorSid = st.processorSid := by
  refine ⟨?_, ?_, ?_, ?_, ?_⟩
  · simp [processorPostSid, shttpSessionInit, h]
  · simp [heartbeatPostSid, shttpSessionInit, h]
  · simp only [processorOnPostResponse]
    by_cases hne : some nid ≠ st.processorSid
    · simp [hne]
    · push_neg at hne
      simp [hne]
  · simp only [processorOnPostResponse]
    split_ifs <;> rfl
  · simp only [heartbeatOnResponse]
    split_ifs <;> rfl

/-- Claim C7, witness: with the learned id A, the first processor POST
carries A. -/
theorem C7_witness :
    processorPostSid (shttpSessionInit (some "A".toList)) = some "A".toList :=
  (C7_prop "A".toList "B".toList (shttpSessionInit (some "A".toList))
    (by decide)).1

/-! ## Claim C8: egress wrapping rule -/

/-- Claim C8.  In SSE and streamable egress, a message whose first
non-whitespace byte is not a left brace is POSTed as the wrapper object
(such a message cannot start with a left brace, so the code wraps it), and
a message beginning with a left brace is POSTed verbatim. -/
theorem C8_prop (m : List Char) :
    (firstNonWs m ≠ some '{' → egressPosted m = .wrapped m) ∧
    (m.head? = some '{' → egressPosted m = .verbatim m) := by
  constructor
  · intro h
    cases m with
    | nil => rfl
    | cons c rest =>
        by_cases hc : c = '{'
        · exfalso
          apply h
          subst hc
          rfl
        · simp [egressPosted, hc]
  · intro h
    cases m with
    | nil => simp at h
    | cons c rest =>
        have hc : c = '{' := by simpa using h
        subst hc
        simp [egressPosted]

/-- Claim C8, witness: a plain-text message is POSTed wrapped. -/
theorem C8_witness :
    egressPosted "hello".toList = .wrapped "hello".toList :=
  (C8_prop "hello".toList).1 (by decide)

/-! ## Claim C9: process exit status -/

/-- Claim C9, counterexample.  A top-level exception other than
`KeyboardInterrupt` is caught by the final `except Exception` branch, which
only logs; the script then falls off its end and the interpreter exits with
status 0, not non-zero as claimed. -/
theorem C9_counterexample :
    mainExitCode TopLevelEnd.otherException = 0 := rfl

/-- Claim C9, amended.  The process exits with status 0 on SIGINT, on a
top-level `KeyboardInterrupt` (caught and logged), and also when any other
top-level exception escapes the Supervisor (it is logged and the script
ends normally); a non-zero status (1) occurs only on the fatal
configuration-error paths. -/
theorem C9_prop (e : TopLevelEnd) (c : ConfigFailure) :
    mainExitCode e = 0 ∧ configFailureExitCode c = 1 := by
  cases e <;> exact ⟨rfl, rfl⟩

/-! ## Claim C10: ResponseQueue.add never raises QueueFull -/

/-- Claim C10.  `ResponseQueue.add` never produces `asyncio.QueueFull`
(the underlying `queue.put` suspends on a full queue; only `put_nowait`
raises `QueueFull`, so the handler in `add` is unreachable); when the queue
is full and no slot frees within the 10-second `wait_for` window the caller
sees `asyncio.TimeoutError` and the message is not enqueued; with room in
the queue the message is appended. -/
theorem C10_prop (q : List (List Char)) (m : List Char) (b : Bool) :
    ResponseQueue_add q m b ≠ .queueFullRaised ∧
    (RESPONSE_QUEUE_MAXSIZE ≤ q.length →
      ResponseQueue_add q m false = .timeoutNotEnqueued) ∧
    (q.length < RESPONSE_QUEUE_MAXSIZE →
      ResponseQueue_add q m b = .enqueued (q ++ [m])) := by
  refine ⟨?_, ?_, ?_⟩
  · unfold ResponseQueue_add
    split_ifs <;> simp
  · intro h
    unfold ResponseQueue_add
    rw [if_neg (by omega)]
    rfl
  · intro h
    unfold ResponseQueue_add
    rw [if_pos h]

/-- Claim C10, witness: on a queue holding 1000 messages with no consumer
progress, `add` times out and the message is dropped. -/
theorem C10_witness :
    ResponseQueue_add (List.replicate 1000 []) [] false = .timeoutNotEnqueued :=
  (C10_prop (List.replicate 1000 []) [] false).2.1
    (by rw [List.length_replicate]; exact Nat.le_refl 1000)
